import Mathlib

/-!
Shallow embedding of the FormularioEquipamiento repository:
`componente_busqueda_clientes.py` (customer search, ID normalization,
duplicate check) and the required-field validator
`validar_campos_obligatorios` of `formulario_ST_V13.py`,
together with theorems settling the specification claims.

Database rows are modelled as Lean structures, nullable SQL columns as
`Option String`, and the storage backend as an explicit `Storage` state
threaded through the operations; the counters `conexiones` / `consultas`
record how often a connection was opened and a query executed, and the
flag `falla` models a connectivity error being raised by the backend
(which the Python code catches, surfacing a warning and returning the
failure sentinel).  SQL LOWER / ILIKE are modelled on the ASCII range.
-/

/-- SQL LIKE pattern matching: `likeM pat s` decides whether the whole
string `s` matches the pattern `pat`, where a percent sign matches any
(possibly empty) character sequence, an underscore matches exactly one
character, and every other pattern character matches itself. -/
def likeM : List Char → List Char → Bool
  | [], s => s.isEmpty
  | p :: ps, s =>
    if p = '%' then s.tails.any (fun t => likeM ps t)
    else
      match s with
      | [] => false
      | c :: s2 => (if p = '_' then true else p == c) && likeM ps s2

/-- ASCII lower-casing of one character, modelling SQL LOWER on the
ASCII range (non-ASCII case mapping is outside the model). -/
def minusculaChar (c : Char) : Char :=
  match c with
  | 'A' => 'a' | 'B' => 'b' | 'C' => 'c' | 'D' => 'd' | 'E' => 'e' | 'F' => 'f'
  | 'G' => 'g' | 'H' => 'h' | 'I' => 'i' | 'J' => 'j' | 'K' => 'k' | 'L' => 'l'
  | 'M' => 'm' | 'N' => 'n' | 'O' => 'o' | 'P' => 'p' | 'Q' => 'q' | 'R' => 'r'
  | 'S' => 's' | 'T' => 't' | 'U' => 'u' | 'V' => 'v' | 'W' => 'w' | 'X' => 'x'
  | 'Y' => 'y' | 'Z' => 'z' | _ => c

/-- SQL LOWER on a whole string (ASCII model). -/
def minuscula (s : String) : String := ⟨s.data.map minusculaChar⟩

/-- `sqlLike v p` models the SQL expression `v LIKE p`. -/
def sqlLike (valor patron : String) : Bool := likeM patron.data valor.data

/-- `v LIKE p` on a nullable column: NULL makes the condition not hold. -/
def sqlLikeOpt (valor : Option String) (patron : String) : Bool :=
  match valor with
  | none => false
  | some s => sqlLike s patron

/-- `v ILIKE p` (equivalently `LOWER(v) LIKE LOWER(p)`) on a nullable
column: case-insensitive LIKE, NULL makes the condition not hold. -/
def sqlIlikeOpt (valor : Option String) (patron : String) : Bool :=
  match valor with
  | none => false
  | some s => sqlLike (minuscula s) (minuscula patron)

/-- `normalizar_cuit_dni` from componente_busqueda_clientes.py: a falsy
(empty) input yields the empty string, otherwise every character outside
the ASCII digits 0-9 is removed (the regex `[^0-9]` substitution). -/
def normalizar_cuit_dni (cuit_dni : String) : String :=
  if cuit_dni = "" then "" else ⟨cuit_dni.data.filter Char.isDigit⟩

/-- One row of the `clientes` table, with nullable text columns as
`Option String`; `comercial_asignado` is the text-array column. -/
structure Cliente where
  id : Nat
  tipo_cliente : String
  nombre_fantasia : Option String
  razon_social : Option String
  nombre_apellido : Option String
  cuit_dni : Option String
  telefono : Option String
  direccion : Option String
  email : Option String
  contacto_nombre : Option String
  comercial_asignado : List String
  visible_para_todos : Bool
  activo : Bool
  busqueda_texto : Option String
deriving DecidableEq, Repr

/-- SQL COALESCE of two nullable values. -/
def coalesce2 (a b : Option String) : Option String :=
  match a with
  | some x => some x
  | none => b

/-- SQL COALESCE of three nullable values. -/
def coalesce3 (a b c : Option String) : Option String :=
  coalesce2 a (coalesce2 b c)

/-- The `nombre_display` column computed by the query: the personal name
for a `Paciente`, otherwise `COALESCE(nombre_fantasia, razon_social)`. -/
def nombre_display (c : Cliente) : Option String :=
  if c.tipo_cliente = "Paciente" then c.nombre_apellido
  else coalesce2 c.nombre_fantasia c.razon_social

/-- Priority 1 of the relevance score: 1000 points when the requesting
agent (`comercial`, NULL allowed) appears in `comercial_asignado`. -/
def bonusComercial (comercial : Option String) (c : Cliente) : Nat :=
  match comercial with
  | none => 0
  | some a => if a ∈ c.comercial_asignado then 1000 else 0

/-- Priority 2 of the relevance score: 500 points when the row is
flagged `visible_para_todos`. -/
def bonusVisible (c : Cliente) : Nat :=
  if c.visible_para_todos then 500 else 0

/-- The CUIT/DNI bonus of the relevance score: 300 points for an exact
match with the normalized search text, else 200 points when the column
matches `LIKE '%<normalized text>%'`. -/
def bonusCuit (texto_normalizado : String) (c : Cliente) : Nat :=
  if c.cuit_dni = some texto_normalizado then 300
  else if sqlLikeOpt c.cuit_dni ( "%" ++ (texto_normalizado ++ "%")) then 200
  else 0

/-- The name bonus of the relevance score: 250 points when
`LOWER(COALESCE(nombre_fantasia, nombre_apellido, razon_social))`
matches `LOWER(<raw text>)` as a LIKE pattern, else 150 points when
`LOWER(busqueda_texto)` matches `LOWER(<raw text> || '%')`, else
100 points when `busqueda_texto ILIKE '%<raw text>%'`. -/
def bonusNombre (texto_busqueda : String) (c : Cliente) : Nat :=
  if sqlIlikeOpt (coalesce3 c.nombre_fantasia c.nombre_apellido c.razon_social)
      texto_busqueda then 250
  else if sqlIlikeOpt c.busqueda_texto (texto_busqueda ++ "%") then 150
  else if sqlIlikeOpt c.busqueda_texto ( "%" ++ (texto_busqueda ++ "%")) then 100
  else 0

/-- The full `relevancia_score` computed by the query: the sum of the
four independent bonuses. -/
def relevancia_total (comercial : Option String) (texto_busqueda : String)
    (c : Cliente) : Nat :=
  bonusComercial comercial c + bonusVisible c
    + bonusCuit (normalizar_cuit_dni texto_busqueda) c + bonusNombre texto_busqueda c

/-- The WHERE clause of the search query: the row is active, the
searchable text or the CUIT/DNI contains the search text
(case-insensitively), and the optional type filter matches. -/
def cumpleWhere (texto_busqueda : String) (tipo_cliente : Option String)
    (c : Cliente) : Bool :=
  c.activo
    && (sqlIlikeOpt c.busqueda_texto ( "%" ++ (texto_busqueda ++ "%"))
        || sqlIlikeOpt c.cuit_dni ( "%" ++ (texto_busqueda ++ "%")))
    && (match tipo_cliente with
        | none => true
        | some t => c.tipo_cliente = t)

/-- One row of the result set built by `buscar_clientes_db`: the selected
columns together with the computed display name and relevance score. -/
structure Resultado where
  id : Nat
  tipo_cliente : String
  nombre_display : Option String
  nombre_fantasia : Option String
  razon_social : Option String
  nombre_apellido : Option String
  cuit_dni : Option String
  telefono : Option String
  direccion : Option String
  email : Option String
  contacto_nombre : Option String
  comercial_asignado : List String
  relevancia_score : Nat
deriving DecidableEq, Repr

/-- Builds the result row for one matching client. -/
def mkResultado (comercial : Option String) (texto_busqueda : String)
    (c : Cliente) : Resultado :=
  { id := c.id
    tipo_cliente := c.tipo_cliente
    nombre_display := nombre_display c
    nombre_fantasia := c.nombre_fantasia
    razon_social := c.razon_social
    nombre_apellido := c.nombre_apellido
    cuit_dni := c.cuit_dni
    telefono := c.telefono
    direccion := c.direccion
    email := c.email
    contacto_nombre := c.contacto_nombre
    comercial_asignado := c.comercial_asignado
    relevancia_score := relevancia_total comercial texto_busqueda c }

/-- Ordering of nullable display names for `ORDER BY nombre_display ASC`
(NULLS LAST, the PostgreSQL default for ascending order). -/
def nombreLe : Option String → Option String → Bool
  | _, none => true
  | none, some _ => false
  | some a, some b => decide (a ≤ b)

/-- The ORDER BY relation of the query: relevance score descending,
display name ascending as tie-break. -/
def leRes (a b : Resultado) : Prop :=
  b.relevancia_score < a.relevancia_score
    ∨ (a.relevancia_score = b.relevancia_score
        ∧ nombreLe a.nombre_display b.nombre_display = true)

instance : DecidableRel leRes := fun a b => by
  unfold leRes; exact inferInstance

/-- The storage backend: the `clientes` table plus bookkeeping that makes
the side effects of each call observable (`conexiones` connections opened,
`consultas` queries executed) and a flag modelling a raised connectivity
error. -/
structure Storage where
  clientes : List Cliente
  falla : Bool
  conexiones : Nat
  consultas : Nat
deriving DecidableEq, Repr

/-- `buscar_clientes_db` from componente_busqueda_clientes.py: returns
the empty list for a search text of fewer than 2 characters without
touching storage; on a connectivity error the exception is caught and the
empty list returned; otherwise the rows satisfying the WHERE clause are
scored, those with positive score are sorted by score descending then
display name ascending, and the first `limite` rows are returned. -/
def buscar_clientes_db (texto_busqueda : String) (tipo_cliente : Option String)
    (comercial : Option String) (limite : Nat) (st : Storage) :
    List Resultado × Storage :=
  if texto_busqueda.length < 2 then ([], st)
  else if st.falla then ([], st)
  else
    let relevantes := (st.clientes.filter (cumpleWhere texto_busqueda tipo_cliente)).map
      (mkResultado comercial texto_busqueda)
    let positivos := relevantes.filter (fun r => decide (0 < r.relevancia_score))
    let ordenados := List.insertionSort leRes positivos
    (ordenados.take limite,
     { st with conexiones := st.conexiones + 1, consultas := st.consultas + 1 })

/-- `verificar_cuit_dni_existe` from componente_busqueda_clientes.py:
normalizes the input, returns False for an empty normalization without
touching storage, returns False when the storage call raises, and
otherwise reports whether some row has exactly the normalized CUIT/DNI. -/
def verificar_cuit_dni_existe (cuit_dni : String) (st : Storage) :
    Bool × Storage :=
  let cuit_normalizado := normalizar_cuit_dni cuit_dni
  if cuit_normalizado = "" then (false, st)
  else if st.falla then (false, st)
  else
    (decide (0 < st.clientes.countP (fun c => c.cuit_dni = some cuit_normalizado)),
     { st with conexiones := st.conexiones + 1, consultas := st.consultas + 1 })

/-- A character that Python's `str.strip()` removes. -/
def esBlanco (c : Char) : Bool :=
  c = ' ' || c = '\t' || c = '\n' || c = '\r' || c = '\x0b' || c = '\x0c'

/-- Python `str.strip()`: leading and trailing whitespace removed. -/
def pyStrip (s : String) : String :=
  ⟨((s.data.dropWhile esBlanco).reverse.dropWhile esBlanco).reverse⟩

/-- One entry of the `equipos` list of a submission; an absent or empty
Python value is modelled as the empty string. -/
structure Equipo where
  tipo_equipo : String
  marca : String
  modelo : String
  numero_serie : String
deriving DecidableEq, Repr

/-- The submission dictionary handed to `validar_campos_obligatorios`:
every field read by the validator, with an absent or empty (falsy)
Python value modelled as the empty string. -/
structure Data where
  email : String
  quien_completa : String
  area_solicitante : String
  solicitante : String
  equipo_corresponde_a : String
  nombre_fantasia : String
  razon_social : String
  cuit : String
  contacto_nombre : String
  contacto_telefono : String
  contacto_tecnico : String
  comercial_syemed : String
  motivo_solicitud : String
  nombre_apellido_paciente : String
  telefono_paciente : String
  equipo_origen : String
  motivo_cambio_alquiler : String
  detalle_fallo : String
  fallas_problemas : List String
  equipos : List Equipo
deriving DecidableEq, Repr

/-- The common validations at the top of `validar_campos_obligatorios`:
e-mail and who fills in the form are mandatory. -/
def erroresComunes (d : Data) : List String :=
  (if d.email = "" then ["El correo electrónico es obligatorio"] else [])
    ++ (if d.quien_completa = "" then ["Debe indicar quién completa la solicitud"] else [])

/-- The nested required-field checks of the Colaborador branch, keyed on
`equipo_corresponde_a`. -/
def erroresEquipoCorresponde (d : Data) : List String :=
  if d.equipo_corresponde_a = "Distribuidor" then
    (if d.nombre_fantasia = "" then ["Nombre de Fantasía (Distribuidor) es obligatorio"] else [])
      ++ (if d.razon_social = "" then ["Razón Social (Distribuidor) es obligatorio"] else [])
      ++ (if d.cuit = "" then ["CUIT (Distribuidor) es obligatorio"] else [])
      ++ (if d.contacto_nombre = "" then ["Nombre de contacto (Distribuidor) es obligatorio"] else [])
      ++ (if d.contacto_telefono = "" then ["Teléfono de contacto (Distribuidor) es obligatorio"] else [])
      ++ (if d.contacto_tecnico = "" then ["Debe indicar si quiere contacto técnico (Distribuidor)"] else [])
      ++ (if d.motivo_solicitud = "" then ["Motivo de la solicitud (Distribuidor) es obligatorio"] else [])
  else if d.equipo_corresponde_a = "Institución" then
    (if d.nombre_fantasia = "" then ["Nombre del Hospital/Clínica (Institución) es obligatorio"] else [])
      ++ (if d.razon_social = "" then ["Razón Social (Institución) es obligatorio"] else [])
      ++ (if d.contacto_nombre = "" then ["Nombre de contacto (Institución) es obligatorio"] else [])
      ++ (if d.contacto_telefono = "" then ["Teléfono de contacto (Institución) es obligatorio"] else [])
      ++ (if d.contacto_tecnico = "" then ["Debe indicar si quiere contacto técnico (Institución)"] else [])
      ++ (if d.motivo_solicitud = "" then ["Motivo de la solicitud (Institución) es obligatorio"] else [])
  else if d.equipo_corresponde_a = "Paciente/Particular" then
    (if d.nombre_apellido_paciente = "" then ["Nombre y Apellido (Paciente) es obligatorio"] else [])
      ++ (if d.telefono_paciente = "" then ["Teléfono (Paciente) es obligatorio"] else [])
      ++ (if d.equipo_origen = "" then ["Origen del equipo (Paciente) es obligatorio"] else [])
      ++ (if d.motivo_solicitud = "" then ["Motivo de la solicitud (Paciente) es obligatorio"] else [])
  else []

/-- The category-specific block of `validar_campos_obligatorios`: the
if/elif chain keyed on `quien_completa`. -/
def erroresCategoria (d : Data) : List String :=
  if d.quien_completa = "Colaborador de Syemed" then
    (if d.area_solicitante = "" then ["Área Solicitante es obligatorio"] else [])
      ++ (if d.solicitante = "" ∨ d.solicitante = "Seleccionar solicitante..." then
            ["Solicitante es obligatorio"] else [])
      ++ (if d.equipo_corresponde_a = "" then
            ["\x27El equipo corresponde a\x27 es obligatorio"] else [])
      ++ erroresEquipoCorresponde d
  else if d.quien_completa = "Distribuidor" then
    (if d.nombre_fantasia = "" then ["Nombre de Fantasía es obligatorio"] else [])
      ++ (if d.razon_social = "" then ["Razón Social es obligatorio"] else [])
      ++ (if d.cuit = "" then ["CUIT es obligatorio"] else [])
      ++ (if d.contacto_nombre = "" then ["Nombre de contacto es obligatorio"] else [])
      ++ (if d.contacto_telefono = "" then ["Teléfono de contacto es obligatorio"] else [])
      ++ (if d.comercial_syemed = "" ∨ d.comercial_syemed = "Seleccionar comercial..." then
            ["Comercial de contacto en Syemed es obligatorio"] else [])
      ++ (if d.contacto_tecnico = "" then ["Debe indicar si quiere contacto técnico"] else [])
      ++ (if d.motivo_solicitud = "" then ["Motivo de la solicitud es obligatorio"] else [])
  else if d.quien_completa = "Institución" then
    (if d.nombre_fantasia = "" then ["Nombre del Hospital/Clínica/Sanatorio es obligatorio"] else [])
      ++ (if d.razon_social = "" then ["Razón Social es obligatorio"] else [])
      ++ (if d.contacto_nombre = "" then ["Nombre de contacto es obligatorio"] else [])
      ++ (if d.contacto_telefono = "" then ["Teléfono de contacto es obligatorio"] else [])
      ++ (if d.comercial_syemed = "" ∨ d.comercial_syemed = "Seleccionar comercial..." then
            ["Comercial de contacto en Syemed es obligatorio"] else [])
      ++ (if d.contacto_tecnico = "" then ["Debe indicar si quiere contacto técnico"] else [])
      ++ (if d.motivo_solicitud = "" then ["Motivo de la solicitud es obligatorio"] else [])
  else if d.quien_completa = "Paciente/Particular" then
    (if d.nombre_apellido_paciente = "" then ["Nombre y Apellido es obligatorio"] else [])
      ++ (if d.telefono_paciente = "" then ["Teléfono de contacto es obligatorio"] else [])
      ++ (if d.equipo_origen = "" then ["Origen del equipo es obligatorio"] else [])
      ++ (if d.motivo_solicitud = "" then ["Motivo de la solicitud es obligatorio"] else [])
  else []

/-- The reason-specific block of `validar_campos_obligatorios`, keyed on
`motivo_solicitud`. -/
def erroresMotivo (d : Data) : List String :=
  if d.motivo_solicitud = "Cambio de Alquiler" then
    (if pyStrip d.motivo_cambio_alquiler = "" then
       ["Debe especificar el motivo del cambio de alquiler"] else [])
  else if d.motivo_solicitud = "Cambio por falla de funcionamiento crítica" then
    (if pyStrip d.detalle_fallo = "" then
       ["Debe describir la falla crítica que justifica el cambio"] else [])
  else if d.motivo_solicitud = "Servicio Técnico (reparaciones de equipos en general)"
      ∨ d.motivo_solicitud = "Servicio Post Venta (para alguno de nuestros productos adquiridos)" then
    (if d.fallas_problemas = [] ∧ pyStrip d.detalle_fallo = "" then
       ["Debe seleccionar al menos una opción o especificar en \x27Otros\x27 el motivo de su solicitud"]
     else [])
  else []

/-- The equipment entries that count as registered: a set, non-placeholder
equipment type. -/
def equiposValidos (d : Data) : List Equipo :=
  d.equipos.filter (fun eq => !(eq.tipo_equipo == "") && !(eq.tipo_equipo == "Seleccionar tipo..."))

/-- Per-entry equipment errors for the entry with 1-based ordinal `i`. -/
def erroresEquipo (i : Nat) (eq : Equipo) : List String :=
  (if eq.marca = "" ∨ eq.marca = "Seleccionar marca..." then
     ["La marca del equipo " ++ toString i ++ " es obligatoria"] else [])
    ++ (if eq.modelo = "" ∨ eq.modelo = "Seleccionar modelo..." then
         ["El modelo del equipo " ++ toString i ++ " es obligatorio"] else [])
    ++ (if eq.numero_serie = "" then
         ["El número de serie del equipo " ++ toString i ++ " es obligatorio"] else [])

/-- The `enumerate(equipos_validos, 1)` loop emitting per-entry errors. -/
def erroresEquiposAux : Nat → List Equipo → List String
  | _, [] => []
  | i, eq :: rest => erroresEquipo i eq ++ erroresEquiposAux (i + 1) rest

/-- The equipment block of `validar_campos_obligatorios`: at least one
valid entry must exist, and each valid entry is checked in order. -/
def erroresEquiposSec (d : Data) : List String :=
  if equiposValidos d = [] then ["Debe registrar al menos un equipo"]
  else erroresEquiposAux 1 (equiposValidos d)

/-- `validar_campos_obligatorios` from formulario_ST_V13.py: accumulates
the common, category-specific, reason-specific and equipment errors in
source order and is valid exactly when no error was accumulated. -/
def validar_campos_obligatorios (d : Data) : Bool × List String :=
  let errores :=
    erroresComunes d ++ (erroresCategoria d ++ (erroresMotivo d ++ erroresEquiposSec d))
  (errores.isEmpty, errores)

/-- A LIKE pattern without wildcard characters. -/
def sinComodines (p : List Char) : Bool :=
  p.all (fun c => !(c == '%') && !(c == '_'))

/-- Prefix test on character lists (spec-side helper). -/
def esPrefijoDe : List Char → List Char → Bool
  | [], _ => true
  | _ :: _, [] => false
  | c :: cs, d :: ds => c == d && esPrefijoDe cs ds

/-- Substring test on character lists (spec-side helper). -/
def contiene (q s : List Char) : Bool :=
  s.tails.any (fun t => esPrefijoDe q t)

/-- Spec-side predicate (for comparison with the code): the nullable
field equals the query, ASCII case-insensitively. -/
def igualCI (v : Option String) (q : String) : Bool :=
  match v with
  | none => false
  | some s => minuscula s == minuscula q

/-- Spec-side predicate (for comparison with the code): the nullable
field starts with the query, ASCII case-insensitively. -/
def empiezaConCI (v : Option String) (q : String) : Bool :=
  match v with
  | none => false
  | some s => esPrefijoDe (minuscula q).data (minuscula s).data

/-- Spec-side predicate (for comparison with the code): the nullable
field contains the query somewhere, ASCII case-insensitively. -/
def contieneCI (v : Option String) (q : String) : Bool :=
  match v with
  | none => false
  | some s => contiene (minuscula q).data (minuscula s).data

instance : IsTotal Resultado leRes :=
  ⟨fun a b => by
    unfold leRes
    rcases Nat.lt_trichotomy a.relevancia_score b.relevancia_score with h | h | h
    · exact Or.inr (Or.inl h)
    · have hn : nombreLe a.nombre_display b.nombre_display = true
          ∨ nombreLe b.nombre_display a.nombre_display = true := by
        cases a.nombre_display <;> cases b.nombre_display <;> simp [nombreLe]
        exact le_total _ _
      rcases hn with hn | hn
      · exact Or.inl (Or.inr ⟨h, hn⟩)
      · exact Or.inr (Or.inr ⟨h.symm, hn⟩)
    · exact Or.inl (Or.inl h)⟩

instance : IsTrans Resultado leRes :=
  ⟨fun a b c h1 h2 => by
    unfold leRes at h1 h2 ⊢
    have hnt : nombreLe a.nombre_display b.nombre_display = true →
        nombreLe b.nombre_display c.nombre_display = true →
        nombreLe a.nombre_display c.nombre_display = true := by
      cases a.nombre_display <;> cases b.nombre_display <;> cases c.nombre_display <;>
        simp [nombreLe]
      exact fun hx hy => hx.trans hy
    rcases h1 with h1 | ⟨h1e, h1n⟩ <;> rcases h2 with h2 | ⟨h2e, h2n⟩
    · exact Or.inl (h2.trans h1)
    · exact Or.inl (by omega)
    · exact Or.inl (by omega)
    · exact Or.inr ⟨by omega, hnt h1n h2n⟩⟩

/-- Example client assigned to agent Ariel (used by concrete witnesses). -/
def clienteAsignadoEj : Cliente :=
  { id := 1, tipo_cliente := "Distribuidor", nombre_fantasia := some "Hospital Central",
    razon_social := some "Hospital Central SA", nombre_apellido := none,
    cuit_dni := some "30718343832", telefono := none, direccion := none, email := none,
    contacto_nombre := none, comercial_asignado := ["Ariel"], visible_para_todos := false,
    activo := true, busqueda_texto := some "hospital central" }

/-- Example client assigned to nobody (used by concrete witnesses). -/
def clienteComunEj : Cliente :=
  { id := 2, tipo_cliente := "Paciente", nombre_fantasia := none, razon_social := none,
    nombre_apellido := some "Honorio Paz", cuit_dni := some "20123456", telefono := none,
    direccion := none, email := none, contacto_nombre := none, comercial_asignado := [],
    visible_para_todos := false, activo := true, busqueda_texto := some "honorio paz" }

/-- Example client whose display name starts with "ab" without being equal
to it (used by concrete witnesses). -/
def clienteNombreEj : Cliente :=
  { id := 3, tipo_cliente := "Distribuidor", nombre_fantasia := some "abc",
    razon_social := none, nombre_apellido := none, cuit_dni := some "30", telefono := none,
    direccion := none, email := none, contacto_nombre := none, comercial_asignado := [],
    visible_para_todos := false, activo := true, busqueda_texto := some "abc" }

/-- Example client whose CUIT/DNI equals the normalized query "1-23". -/
def clienteCuitExactoEj : Cliente := { clienteAsignadoEj with cuit_dni := some "123" }

/-- Example client whose CUIT/DNI strictly contains the normalized query "1-23". -/
def clienteCuitParcialEj : Cliente := { clienteAsignadoEj with cuit_dni := some "41235" }

/-- Example storage (used by concrete witnesses). -/
def almacenEj : Storage :=
  { clientes := [clienteAsignadoEj, clienteComunEj], falla := false,
    conexiones := 0, consultas := 0 }

/-- Example storage whose backend raises a connectivity error. -/
def almacenFallaEj : Storage := { almacenEj with falla := true }

/-- Example healthy storage with an empty client table. -/
def almacenVacioEj : Storage :=
  { clientes := [], falla := false, conexiones := 0, consultas := 0 }

/-- A complete equipment entry (used by concrete witnesses). -/
def equipoCompletoEj : Equipo :=
  { tipo_equipo := "CPAP", marca := "ResMed", modelo := "AirSense 10",
    numero_serie := "SN123" }

/-- A complete Distributor submission with reason TechnicalService, no
issue-tags and a non-empty free-text detail. -/
def solicitudDistribuidorEj : Data :=
  { email := "contacto@medequip.com", quien_completa := "Distribuidor",
    area_solicitante := "", solicitante := "", equipo_corresponde_a := "",
    nombre_fantasia := "MedEquip", razon_social := "MedEquip SA", cuit := "30718343832",
    contacto_nombre := "Juan Gomez", contacto_telefono := "1123730278",
    contacto_tecnico := "Si", comercial_syemed := "Ariel",
    motivo_solicitud := "Servicio Técnico (reparaciones de equipos en general)",
    nombre_apellido_paciente := "", telefono_paciente := "", equipo_origen := "",
    motivo_cambio_alquiler := "", detalle_fallo := "El equipo no enciende",
    fallas_problemas := [], equipos := [equipoCompletoEj] }

/-- The same Distributor submission with empty free-text detail. -/
def solicitudDistribuidorSinDetalleEj : Data :=
  { solicitudDistribuidorEj with detalle_fallo := "" }

/-- A Patient/Particular submission whose patient-phone field is missing. -/
def solicitudPacienteEj : Data :=
  { email := "paciente@mail.com", quien_completa := "Paciente/Particular",
    area_solicitante := "", solicitante := "", equipo_corresponde_a := "",
    nombre_fantasia := "", razon_social := "", cuit := "",
    contacto_nombre := "", contacto_telefono := "", contacto_tecnico := "",
    comercial_syemed := "", motivo_solicitud := "Alta de equipo nuevo",
    nombre_apellido_paciente := "Hilda Soto", telefono_paciente := "",
    equipo_origen := "Compra directa", motivo_cambio_alquiler := "",
    detalle_fallo := "", fallas_problemas := [], equipos := [equipoCompletoEj] }

/-- The complete Distributor submission with an empty equipment list. -/
def solicitudSinEquiposEj : Data :=
  { solicitudDistribuidorEj with equipos := [] }

theorem esPrefijoDe_iff {p s : List Char} : esPrefijoDe p s = true ↔ p <+: s := by
  induction p generalizing s with
  | nil => simp [esPrefijoDe]
  | cons c cs ih =>
    cases s with
    | nil => simp [esPrefijoDe]
    | cons d ds => simp [esPrefijoDe, ih, List.cons_prefix_cons]

theorem infijo_por_sufijo {q s : List Char} :
    (∃ t, t <:+ s ∧ q <+: t) ↔ q <:+: s := by
  constructor
  · rintro ⟨t, ⟨v, hv⟩, ⟨u, hu⟩⟩
    exact ⟨v, u, by rw [← hv, ← hu]; simp [List.append_assoc]⟩
  · rintro ⟨v, u, huv⟩
    refine ⟨q ++ u, ⟨v, by rw [← huv]; simp [List.append_assoc]⟩, ⟨u, rfl⟩⟩

theorem contiene_iff {q s : List Char} : contiene q s = true ↔ q <:+: s := by
  rw [← infijo_por_sufijo]
  simp [contiene, List.any_eq_true, List.mem_tails]
  constructor
  · rintro ⟨t, h1, h2⟩; exact ⟨t, h1, esPrefijoDe_iff.1 h2⟩
  · rintro ⟨t, h1, h2⟩; exact ⟨t, h1, esPrefijoDe_iff.2 h2⟩

theorem sinComodines_cons {c : Char} {ps : List Char}
    (h : sinComodines (c :: ps) = true) :
    c ≠ '%' ∧ c ≠ '_' ∧ sinComodines ps = true := by
  rw [sinComodines, List.all_cons] at h
  simp only [Bool.and_eq_true, Bool.not_eq_true', beq_eq_false_iff_ne] at h
  exact ⟨h.1.1, h.1.2, h.2⟩

theorem likeM_sinComodines {p : List Char} (hp : sinComodines p = true) (s : List Char) :
    likeM p s = true ↔ s = p := by
  induction p generalizing s with
  | nil => cases s <;> simp [likeM]
  | cons c ps ih =>
    obtain ⟨h1, h2, h3⟩ := sinComodines_cons hp
    cases s with
    | nil => simp [likeM, h1]
    | cons d ds =>
      simp only [likeM, if_neg h1, if_neg h2, Bool.and_eq_true, beq_iff_eq,
        ih h3, List.cons.injEq]
      constructor
      · rintro ⟨rfl, rfl⟩; exact ⟨rfl, rfl⟩
      · rintro ⟨rfl, rfl⟩; exact ⟨rfl, rfl⟩

theorem likeM_prefijo {p : List Char} (hp : sinComodines p = true) (s : List Char) :
    likeM (p ++ ['%']) s = true ↔ p <+: s := by
  induction p generalizing s with
  | nil =>
    simp only [List.nil_append]
    rw [show likeM ['%'] s = s.tails.any (fun t => likeM [] t) from rfl]
    simp only [List.any_eq_true, List.mem_tails]
    constructor
    · intro _; exact List.nil_prefix
    · intro _; exact ⟨[], List.nil_suffix, rfl⟩
  | cons c ps ih =>
    obtain ⟨h1, h2, h3⟩ := sinComodines_cons hp
    cases s with
    | nil =>
      simp only [List.cons_append]
      simp [likeM, h1]
    | cons d ds =>
      have ih2 := ih h3 ds
      simp only [List.cons_append, likeM, if_neg h1, if_neg h2, Bool.and_eq_true,
        beq_iff_eq, List.cons_prefix_cons]
      exact and_congr Iff.rfl ih2

theorem likeM_contiene {p : List Char} (hp : sinComodines p = true) (s : List Char) :
    likeM ('%' :: (p ++ ['%'])) s = true ↔ p <:+: s := by
  rw [show likeM ('%' :: (p ++ ['%'])) s
      = s.tails.any (fun t => likeM (p ++ ['%']) t) from rfl]
  rw [← infijo_por_sufijo]
  simp only [List.any_eq_true, List.mem_tails]
  constructor
  · rintro ⟨t, ht1, ht2⟩; exact ⟨t, ht1, (likeM_prefijo hp t).1 ht2⟩
  · rintro ⟨t, ht1, ht2⟩; exact ⟨t, ht1, (likeM_prefijo hp t).2 ht2⟩

set_option maxHeartbeats 1000000 in
theorem minusculaChar_pct {c : Char} (h : minusculaChar c = '%') : c = '%' := by
  unfold minusculaChar at h
  split at h <;> first | exact h | exact absurd h (by decide)

set_option maxHeartbeats 1000000 in
theorem minusculaChar_usc {c : Char} (h : minusculaChar c = '_') : c = '_' := by
  unfold minusculaChar at h
  split at h <;> first | exact h | exact absurd h (by decide)

theorem sinComodines_map {l : List Char} (h : sinComodines l = true) :
    sinComodines (l.map minusculaChar) = true := by
  rw [sinComodines, List.all_eq_true] at h ⊢
  intro x hx
  rw [List.mem_map] at hx
  obtain ⟨c, hc, rfl⟩ := hx
  have hc2 := h c hc
  simp only [Bool.and_eq_true, Bool.not_eq_true', beq_eq_false_iff_ne] at hc2 ⊢
  exact ⟨fun hp => absurd (minusculaChar_pct hp) hc2.1,
         fun hu => absurd (minusculaChar_usc hu) hc2.2⟩

theorem sinComodines_normalizar (q : String) :
    sinComodines (normalizar_cuit_dni q).data = true := by
  unfold normalizar_cuit_dni
  split_ifs
  · decide
  · rw [show (String.mk (q.data.filter Char.isDigit)).data
        = q.data.filter Char.isDigit from rfl]
    rw [sinComodines, List.all_eq_true]
    intro c hc
    have hd := List.of_mem_filter hc
    simp only [Bool.and_eq_true, Bool.not_eq_true', beq_eq_false_iff_ne]
    constructor <;> rintro rfl <;> exact absurd hd (by decide)

theorem datos_minuscula (s : String) :
    (minuscula s).data = s.data.map minusculaChar := rfl

theorem datos_patron_inicio (q : String) :
    ((q ++ "%") : String).data = q.data ++ ['%'] := by
  rw [String.data_append]

theorem datos_patron_parcial (q : String) :
    (( "%" ++ (q ++ "%")) : String).data = '%' :: (q.data ++ ['%']) := by
  rw [String.data_append, String.data_append]
  rfl

theorem boolEqDeIff {a b : Bool} (h : (a = true) ↔ (b = true)) : a = b := by
  cases a <;> cases b <;> simp_all

theorem cabeza_append {a : String} (b : String) {ch : Char}
    (h : a.data.head? = some ch) : (a ++ b).data.head? = some ch := by
  simp [String.data_append, List.head?_append, h]

theorem cabeza_mensaje (a b c : String) {ch : Char} (h : a.data.head? = some ch) :
    ((a ++ b) ++ c).data.head? = some ch :=
  cabeza_append _ (cabeza_append _ h)

theorem ne_de_cabeza {s t : String} {c d : Char} (hs : s.data.head? = some c)
    (ht : t.data.head? = some d) (hcd : c ≠ d) : s ≠ t := by
  intro h
  rw [h, ht] at hs
  exact hcd (Option.some.inj hs).symm

theorem en_ite_singleton {x m : String} {c : Prop} [Decidable c]
    (h : x ∈ (if c then [m] else ([] : List String))) : x = m := by
  split at h
  · simpa using h
  · simp at h

theorem no_en_erroresEquiposAux {e : String}
    (hL : e.data.head? ≠ some 'L') (hE : e.data.head? ≠ some 'E') :
    ∀ (i : Nat) (eqs : List Equipo), e ∉ erroresEquiposAux i eqs := by
  intro i eqs
  induction eqs generalizing i with
  | nil => simp [erroresEquiposAux]
  | cons eq rest ih =>
    rw [erroresEquiposAux]
    intro hmem
    rcases List.mem_append.1 hmem with h | h
    · unfold erroresEquipo at h
      rcases List.mem_append.1 h with h' | h'
      · rcases List.mem_append.1 h' with h2 | h2
        · exact hL (by rw [en_ite_singleton h2]; exact cabeza_mensaje _ _ _ (by decide))
        · exact hE (by rw [en_ite_singleton h2]; exact cabeza_mensaje _ _ _ (by decide))
      · exact hE (by rw [en_ite_singleton h']; exact cabeza_mensaje _ _ _ (by decide))
    · exact ih _ h

theorem no_en_validar {d : Data} {e : String}
    (h1 : e ∉ erroresComunes d) (h2 : e ∉ erroresCategoria d)
    (h3 : e ∉ erroresMotivo d) (h4 : e ∉ erroresEquiposSec d) :
    e ∉ (validar_campos_obligatorios d).2 := by
  intro hmem
  replace hmem : e ∈ erroresComunes d
      ++ (erroresCategoria d ++ (erroresMotivo d ++ erroresEquiposSec d)) := hmem
  rcases List.mem_append.1 hmem with h | h
  · exact h1 h
  rcases List.mem_append.1 h with h | h
  · exact h2 h
  rcases List.mem_append.1 h with h | h
  · exact h3 h
  · exact h4 h

theorem en_validar_de_motivo {d : Data} {e : String} (h : e ∈ erroresMotivo d) :
    e ∈ (validar_campos_obligatorios d).2 := by
  show e ∈ erroresComunes d
      ++ (erroresCategoria d ++ (erroresMotivo d ++ erroresEquiposSec d))
  exact List.mem_append_right _ (List.mem_append_right _ (List.mem_append_left _ h))

theorem en_validar_de_equipos {d : Data} {e : String} (h : e ∈ erroresEquiposSec d) :
    e ∈ (validar_campos_obligatorios d).2 := by
  show e ∈ erroresComunes d
      ++ (erroresCategoria d ++ (erroresMotivo d ++ erroresEquiposSec d))
  exact List.mem_append_right _ (List.mem_append_right _ (List.mem_append_right _ h))

theorem ilike_igual {v : Option String} {q : String}
    (hq : sinComodines q.data = true) : sqlIlikeOpt v q = igualCI v q := by
  cases v with
  | none => rfl
  | some s =>
    apply boolEqDeIff
    show likeM (minuscula q).data (minuscula s).data = true ↔ _
    rw [likeM_sinComodines (by rw [datos_minuscula]; exact sinComodines_map hq)]
    rw [show (igualCI (some s) q = true) ↔ (minuscula s == minuscula q) = true from Iff.rfl]
    rw [beq_iff_eq, String.ext_iff]

theorem ilike_empieza {v : Option String} {q : String}
    (hq : sinComodines q.data = true) :
    sqlIlikeOpt v (q ++ "%") = empiezaConCI v q := by
  cases v with
  | none => rfl
  | some s =>
    apply boolEqDeIff
    show likeM (minuscula (q ++ "%")).data (minuscula s).data = true ↔ _
    rw [show (minuscula (q ++ "%")).data = (minuscula q).data ++ ['%'] by
      rw [datos_minuscula, datos_patron_inicio, List.map_append, datos_minuscula]; rfl]
    rw [likeM_prefijo (by rw [datos_minuscula]; exact sinComodines_map hq)]
    rw [show (empiezaConCI (some s) q = true)
        ↔ esPrefijoDe (minuscula q).data (minuscula s).data = true from Iff.rfl]
    rw [esPrefijoDe_iff]

theorem ilike_contiene {v : Option String} {q : String}
    (hq : sinComodines q.data = true) :
    sqlIlikeOpt v ( "%" ++ (q ++ "%")) = contieneCI v q := by
  cases v with
  | none => rfl
  | some s =>
    apply boolEqDeIff
    show likeM (minuscula ( "%" ++ (q ++ "%"))).data (minuscula s).data = true ↔ _
    rw [show (minuscula ( "%" ++ (q ++ "%"))).data = '%' :: ((minuscula q).data ++ ['%']) by
      rw [datos_minuscula, datos_patron_parcial, List.map_cons, List.map_append,
        datos_minuscula]; rfl]
    rw [likeM_contiene (by rw [datos_minuscula]; exact sinComodines_map hq)]
    rw [show (contieneCI (some s) q = true)
        ↔ contiene (minuscula q).data (minuscula s).data = true from Iff.rfl]
    rw [contiene_iff]

theorem normalizar_de_digitos {s : String} (h : ∀ c ∈ s.data, c.isDigit = true) :
    normalizar_cuit_dni s = s := by
  unfold normalizar_cuit_dni
  split_ifs with hs
  · exact hs.symm
  · rw [List.filter_eq_self.mpr h]

theorem normalizar_sin_digitos {s : String} (h : ∀ c ∈ s.data, c.isDigit = false) :
    normalizar_cuit_dni s = "" := by
  unfold normalizar_cuit_dni
  split_ifs with hs
  · rfl
  · rw [List.filter_eq_nil_iff.mpr (fun a ha => by simp [h a ha])]

/-- C8: the identifying-ID normalization is idempotent: a digits-only
string is left unchanged, and for every input normalizing twice equals
normalizing once. -/
theorem c8_normalizar_idempotente :
    (∀ s : String, (∀ c ∈ s.data, c.isDigit = true) → normalizar_cuit_dni s = s)
    ∧ (∀ s : String,
        normalizar_cuit_dni (normalizar_cuit_dni s) = normalizar_cuit_dni s) := by
  refine ⟨fun s h => normalizar_de_digitos h, fun s => ?_⟩
  by_cases hs : s = ""
  · subst hs; rfl
  · have h1 : normalizar_cuit_dni s = ⟨s.data.filter Char.isDigit⟩ := by
      unfold normalizar_cuit_dni; rw [if_neg hs]
    rw [h1]
    exact normalizar_de_digitos (fun c hc => List.of_mem_filter hc)

theorem c8_testigo :
    normalizar_cuit_dni "30718343832" = "30718343832"
    ∧ normalizar_cuit_dni (normalizar_cuit_dni "30-718343-83.2")
      = normalizar_cuit_dni "30-718343-83.2" :=
  ⟨c8_normalizar_idempotente.1 _ (by decide), c8_normalizar_idempotente.2 _⟩

/-- C10: for an input without digit characters (the empty string
included) the duplicate-ID check returns False and does not touch
storage, so a blank or digit-free ID is never reported as duplicate. -/
theorem c10_verificar_sin_digitos (cuit_dni : String) (st : Storage)
    (h : ∀ c ∈ cuit_dni.data, c.isDigit = false) :
    verificar_cuit_dni_existe cuit_dni st = (false, st) := by
  have hn := normalizar_sin_digitos h
  simp [verificar_cuit_dni_existe, hn]

theorem c10_testigo :
    verificar_cuit_dni_existe "AB--" almacenEj = (false, almacenEj) :=
  c10_verificar_sin_digitos "AB--" almacenEj (by decide)

/-- C7: a query of fewer than 2 characters makes the search return the
empty list with the storage state untouched (no connection opened, no
query executed), for every type filter, agent and limit. -/
theorem c7_busqueda_corta (texto_busqueda : String)
    (tipo_cliente comercial : Option String) (limite : Nat) (st : Storage)
    (h : texto_busqueda.length < 2) :
    buscar_clientes_db texto_busqueda tipo_cliente comercial limite st = ([], st) := by
  unfold buscar_clientes_db
  rw [if_pos h]

theorem c7_testigo :
    buscar_clientes_db "a" none (some "Ariel") 15 almacenEj = ([], almacenEj) :=
  c7_busqueda_corta "a" none (some "Ariel") 15 almacenEj (by decide)

/-- C9: when the storage call raises, the search returns the empty list
instead of propagating the exception; an empty list is likewise returned
by a successful search with no matches, so the two are indistinguishable
from the result alone. -/
theorem c9_error_lista_vacia :
    (∀ (texto_busqueda : String) (tipo_cliente comercial : Option String)
        (limite : Nat) (st : Storage), st.falla = true →
        (buscar_clientes_db texto_busqueda tipo_cliente comercial limite st).1 = [])
    ∧ (∀ (texto_busqueda : String) (tipo_cliente comercial : Option String)
        (limite : Nat) (st : Storage), st.falla = false → st.clientes = [] →
        (buscar_clientes_db texto_busqueda tipo_cliente comercial limite st).1 = []) := by
  constructor
  · intro texto tipo com lim st hf
    unfold buscar_clientes_db
    split_ifs <;> simp_all
  · intro texto tipo com lim st hf hc
    unfold buscar_clientes_db
    split_ifs <;> simp_all [List.insertionSort]

theorem c9_testigo :
    (buscar_clientes_db "ho" none (some "Ariel") 15 almacenFallaEj).1 = []
    ∧ (buscar_clientes_db "ho" none (some "Ariel") 15 almacenVacioEj).1 = [] :=
  ⟨c9_error_lista_vacia.1 "ho" none (some "Ariel") 15 almacenFallaEj rfl,
   c9_error_lista_vacia.2 "ho" none (some "Ariel") 15 almacenVacioEj rfl rfl⟩

/-- C2: the ID-match bonus is exclusive: an exact match between the
stored ID and the normalized query yields exactly 300, a strict
(proper-substring) containment yields exactly 200, and the bonus only
ever takes one of the values 300, 200 or 0, never both bonuses. -/
theorem c2_bonus_cuit_excluyente (texto_busqueda : String) (c : Cliente) :
    (c.cuit_dni = some (normalizar_cuit_dni texto_busqueda) →
        bonusCuit (normalizar_cuit_dni texto_busqueda) c = 300)
    ∧ (∀ v : String, c.cuit_dni = some v → v ≠ normalizar_cuit_dni texto_busqueda →
        (normalizar_cuit_dni texto_busqueda).data <:+: v.data →
        bonusCuit (normalizar_cuit_dni texto_busqueda) c = 200)
    ∧ (bonusCuit (normalizar_cuit_dni texto_busqueda) c = 300
        ∨ bonusCuit (normalizar_cuit_dni texto_busqueda) c = 200
        ∨ bonusCuit (normalizar_cuit_dni texto_busqueda) c = 0) := by
  refine ⟨fun h => ?_, fun v hv hne hinf => ?_, ?_⟩
  · unfold bonusCuit
    rw [if_pos h]
  · have hlike : sqlLikeOpt c.cuit_dni
        ( "%" ++ (normalizar_cuit_dni texto_busqueda ++ "%")) = true := by
      rw [hv]
      show likeM (( "%" ++ (normalizar_cuit_dni texto_busqueda ++ "%")) : String).data
          v.data = true
      rw [datos_patron_parcial]
      exact (likeM_contiene (sinComodines_normalizar _) _).2 hinf
    unfold bonusCuit
    rw [if_neg (by rw [hv]; intro heq; exact hne (Option.some.inj heq)), if_pos hlike]
  · unfold bonusCuit
    split_ifs <;> simp

theorem c2_testigo :
    bonusCuit (normalizar_cuit_dni "1-23") clienteCuitExactoEj = 300
    ∧ bonusCuit (normalizar_cuit_dni "1-23") clienteCuitParcialEj = 200 :=
  ⟨(c2_bonus_cuit_excluyente "1-23" clienteCuitExactoEj).1 (by decide),
   (c2_bonus_cuit_excluyente "1-23" clienteCuitParcialEj).2.1 "41235" (by decide)
     (by decide) ⟨['4'], ['5'], by decide⟩⟩

/-- C3 counterexample: for the client with display name "abc" and query
"ab" the display name starts with the raw query (case-insensitively),
yet the name bonus is 150, not the claimed 250: the first branch of the
code compares `LOWER(COALESCE(...))` against the raw query with a
wildcard-free LIKE pattern, which is equality, not a prefix test. -/
theorem c3_contraejemplo :
    empiezaConCI (nombre_display clienteNombreEj) "ab" = true
    ∧ bonusNombre "ab" clienteNombreEj ≠ 250
    ∧ bonusNombre "ab" clienteNombreEj = 150 := by decide

/-- C3 (amended): for a wildcard-free query, the name bonus is 250 when
`COALESCE(nombre_fantasia, nombre_apellido, razon_social)` equals the
raw query case-insensitively (not when the display name merely starts
with it); otherwise 150 when the searchable-text field starts with the
query case-insensitively; otherwise 100 when that field contains the
query case-insensitively; otherwise 0. -/
theorem c3_bonus_nombre_corregido (texto_busqueda : String) (c : Cliente)
    (hw : sinComodines texto_busqueda.data = true) :
    bonusNombre texto_busqueda c =
      if igualCI (coalesce3 c.nombre_fantasia c.nombre_apellido c.razon_social)
          texto_busqueda = true then 250
      else if empiezaConCI c.busqueda_texto texto_busqueda = true then 150
      else if contieneCI c.busqueda_texto texto_busqueda = true then 100
      else 0 := by
  unfold bonusNombre
  simp only [ilike_igual hw, ilike_empieza hw, ilike_contiene hw]

theorem c3_corregido_testigo :
    bonusNombre "ab" clienteNombreEj =
      if igualCI (coalesce3 clienteNombreEj.nombre_fantasia
          clienteNombreEj.nombre_apellido clienteNombreEj.razon_social) "ab" = true
      then 250
      else if empiezaConCI clienteNombreEj.busqueda_texto "ab" = true then 150
      else if contieneCI clienteNombreEj.busqueda_texto "ab" = true then 100
      else 0 :=
  c3_bonus_nombre_corregido "ab" clienteNombreEj (by decide)

/-- C4: for reason TechnicalService or PostSaleService the validator
requires an issue-tag or non-blank detail (absence of both always yields
the issue-selection error); the complete Distributor submission with
non-empty detail is valid with empty error list, and the same submission
with empty detail yields exactly the one issue-selection error. -/
theorem c4_servicio_requiere_falla_o_detalle :
    (∀ d : Data,
        (d.motivo_solicitud = "Servicio Técnico (reparaciones de equipos en general)"
          ∨ d.motivo_solicitud
            = "Servicio Post Venta (para alguno de nuestros productos adquiridos)") →
        d.fallas_problemas = [] → pyStrip d.detalle_fallo = "" →
        "Debe seleccionar al menos una opci\xF3n o especificar en \x27Otros\x27 el motivo de su solicitud"
          ∈ (validar_campos_obligatorios d).2)
    ∧ validar_campos_obligatorios solicitudDistribuidorEj = (true, [])
    ∧ validar_campos_obligatorios solicitudDistribuidorSinDetalleEj
      = (false,
         ["Debe seleccionar al menos una opci\xF3n o especificar en \x27Otros\x27 el motivo de su solicitud"]) := by
  refine ⟨fun d hm hf hd => ?_, by decide, by decide⟩
  apply en_validar_de_motivo
  unfold erroresMotivo
  have h1 : ¬ d.motivo_solicitud = "Cambio de Alquiler" := by
    rcases hm with h | h <;> rw [h] <;> decide
  have h2 : ¬ d.motivo_solicitud = "Cambio por falla de funcionamiento crítica" := by
    rcases hm with h | h <;> rw [h] <;> decide
  rw [if_neg h1, if_neg h2, if_pos hm, if_pos ⟨hf, hd⟩]
  simp

theorem c4_testigo :
    "Debe seleccionar al menos una opci\xF3n o especificar en \x27Otros\x27 el motivo de su solicitud"
      ∈ (validar_campos_obligatorios solicitudDistribuidorSinDetalleEj).2 :=
  c4_servicio_requiere_falla_o_detalle.1 solicitudDistribuidorSinDetalleEj
    (Or.inl rfl) rfl rfl

/-- C6: a submission whose equipment entries all have an unset or
placeholder type (in particular an empty list) always gets the
equipment-count error and is never valid, whatever the other fields. -/
theorem c6_sin_equipos (d : Data)
    (h : ∀ eq ∈ d.equipos,
        eq.tipo_equipo = "" ∨ eq.tipo_equipo = "Seleccionar tipo...") :
    "Debe registrar al menos un equipo" ∈ (validar_campos_obligatorios d).2
    ∧ (validar_campos_obligatorios d).1 = false := by
  have hval : equiposValidos d = [] := by
    unfold equiposValidos
    rw [List.filter_eq_nil_iff]
    intro eq heq
    rcases h eq heq with h1 | h1 <;> simp [h1]
  have hsec : erroresEquiposSec d = ["Debe registrar al menos un equipo"] := by
    unfold erroresEquiposSec
    rw [if_pos hval]
  have hmem2 : "Debe registrar al menos un equipo"
      ∈ erroresComunes d ++ (erroresCategoria d ++ (erroresMotivo d ++ erroresEquiposSec d)) :=
    en_validar_de_equipos (by rw [hsec]; exact List.mem_singleton.mpr rfl)
  refine ⟨hmem2, ?_⟩
  show (erroresComunes d
      ++ (erroresCategoria d ++ (erroresMotivo d ++ erroresEquiposSec d))).isEmpty = false
  exact List.isEmpty_eq_false.mpr (List.ne_nil_of_mem hmem2)

theorem c6_testigo :
    "Debe registrar al menos un equipo"
      ∈ (validar_campos_obligatorios solicitudSinEquiposEj).2
    ∧ (validar_campos_obligatorios solicitudSinEquiposEj).1 = false :=
  c6_sin_equipos solicitudSinEquiposEj
    (fun eq heq => absurd heq (List.not_mem_nil eq))

/-- C5: a Patient/Particular submission missing the patient phone gets
exactly one error mentioning the phone field and no error about any
Distributor-only field (trade name, legal name, CUIT, agent). -/
theorem c5_paciente_telefono (d : Data)
    (hq : d.quien_completa = "Paciente/Particular")
    (ht : d.telefono_paciente = "") :
    (validar_campos_obligatorios d).2.count "Teléfono de contacto es obligatorio" = 1
    ∧ ∀ e ∈ ["Nombre de Fantasía es obligatorio", "Razón Social es obligatorio",
        "CUIT es obligatorio", "Comercial de contacto en Syemed es obligatorio",
        "Nombre de Fantasía (Distribuidor) es obligatorio",
        "Razón Social (Distribuidor) es obligatorio",
        "CUIT (Distribuidor) es obligatorio"],
        e ∉ (validar_campos_obligatorios d).2 := by
  have hcom : (erroresComunes d).count "Teléfono de contacto es obligatorio" = 0 := by
    unfold erroresComunes
    split_ifs <;> decide
  have hcatc : (erroresCategoria d).count "Teléfono de contacto es obligatorio" = 1 := by
    unfold erroresCategoria
    rw [hq, ht]
    simp only [List.count_append]
    simp
    split_ifs <;> decide
  have hmot : (erroresMotivo d).count "Teléfono de contacto es obligatorio" = 0 := by
    unfold erroresMotivo
    split_ifs <;> decide
  have hequ : (erroresEquiposSec d).count "Teléfono de contacto es obligatorio" = 0 := by
    unfold erroresEquiposSec
    split_ifs
    · decide
    · exact List.count_eq_zero.mpr (no_en_erroresEquiposAux (by decide) (by decide) 1 _)
  constructor
  · show (erroresComunes d
        ++ (erroresCategoria d ++ (erroresMotivo d ++ erroresEquiposSec d))).count
        "Teléfono de contacto es obligatorio" = 1
    rw [List.count_append, List.count_append, List.count_append,
      hcom, hcatc, hmot, hequ]
  · intro e he
    fin_cases he <;>
      refine no_en_validar ?_ ?_ ?_ ?_ <;>
      first
        | (unfold erroresComunes; split_ifs <;> decide)
        | (unfold erroresMotivo; split_ifs <;> decide)
        | (unfold erroresEquiposSec; split_ifs <;>
            first
              | decide
              | exact no_en_erroresEquiposAux (by decide) (by decide) 1 _)
        | (unfold erroresCategoria; rw [hq, ht]; simp)

theorem c5_testigo :
    (validar_campos_obligatorios solicitudPacienteEj).2.count
      "Teléfono de contacto es obligatorio" = 1
    ∧ ∀ e ∈ ["Nombre de Fantasía es obligatorio", "Razón Social es obligatorio",
        "CUIT es obligatorio", "Comercial de contacto en Syemed es obligatorio",
        "Nombre de Fantasía (Distribuidor) es obligatorio",
        "Razón Social (Distribuidor) es obligatorio",
        "CUIT (Distribuidor) es obligatorio"],
        e ∉ (validar_campos_obligatorios solicitudPacienteEj).2 :=
  c5_paciente_telefono solicitudPacienteEj rfl rfl

theorem buscar_pairwise (texto_busqueda : String) (tipo_cliente comercial : Option String)
    (limite : Nat) (st : Storage) :
    ((buscar_clientes_db texto_busqueda tipo_cliente comercial limite st).1).Pairwise
      leRes := by
  unfold buscar_clientes_db
  split_ifs
  · simp
  · simp
  · exact List.Pairwise.sublist (List.take_sublist _ _)
      (List.sorted_insertionSort leRes _)

theorem buscar_mem {texto_busqueda : String} {tipo_cliente comercial : Option String}
    {limite : Nat} {st : Storage} {r : Resultado}
    (hr : r ∈ (buscar_clientes_db texto_busqueda tipo_cliente comercial limite st).1) :
    ∃ c : Cliente, r = mkResultado comercial texto_busqueda c := by
  unfold buscar_clientes_db at hr
  split_ifs at hr
  · simp at hr
  · simp at hr
  · have h1 := List.take_subset _ _ hr
    have h2 := (List.perm_insertionSort leRes _).mem_iff.mp h1
    have h3 := (List.mem_filter.mp h2).1
    obtain ⟨c, hc, hcr⟩ := List.mem_map.mp h3
    exact ⟨c, hcr.symm⟩

theorem relevancia_asignado {a texto_busqueda : String} {c : Cliente}
    (h : a ∈ c.comercial_asignado) :
    1000 ≤ relevancia_total (some a) texto_busqueda c := by
  simp only [relevancia_total, bonusComercial, if_pos h]
  omega

/-- C1: a result row whose assigned-agent set contains the requesting
agent has relevance score at least 1000 (as does every such candidate,
whatever the text match), and in the returned, score-descending list it
appears strictly before every result row whose score is below 1000. -/
theorem c1_asignados_dominan (texto_busqueda : String) (tipo_cliente : Option String)
    (a : String) (limite : Nat) (st : Storage) (i j : Nat)
    (hi : i < ((buscar_clientes_db texto_busqueda tipo_cliente (some a) limite st).1).length)
    (hj : j < ((buscar_clientes_db texto_busqueda tipo_cliente (some a) limite st).1).length)
    (hasig : a ∈ (((buscar_clientes_db texto_busqueda tipo_cliente (some a) limite st).1).get
        ⟨i, hi⟩).comercial_asignado)
    (hbajo : (((buscar_clientes_db texto_busqueda tipo_cliente (some a) limite st).1).get
        ⟨j, hj⟩).relevancia_score < 1000) :
    (∀ c : Cliente, a ∈ c.comercial_asignado →
        1000 ≤ relevancia_total (some a) texto_busqueda c)
    ∧ 1000 ≤ (((buscar_clientes_db texto_busqueda tipo_cliente (some a) limite st).1).get
        ⟨i, hi⟩).relevancia_score
    ∧ i < j := by
  have hP := buscar_pairwise texto_busqueda tipo_cliente (some a) limite st
  have hmem := List.get_mem
    ((buscar_clientes_db texto_busqueda tipo_cliente (some a) limite st).1) i hi
  obtain ⟨c, hc⟩ := buscar_mem hmem
  have hscore : 1000 ≤ (((buscar_clientes_db texto_busqueda tipo_cliente (some a)
      limite st).1).get ⟨i, hi⟩).relevancia_score := by
    rw [hc] at hasig ⊢
    exact relevancia_asignado hasig
  refine ⟨fun c2 h2 => relevancia_asignado h2, hscore, ?_⟩
  rcases Nat.lt_trichotomy i j with h | h | h
  · exact h
  · exfalso
    subst h
    have hE : (((buscar_clientes_db texto_busqueda tipo_cliente (some a) limite st).1).get
          ⟨i, hj⟩)
        = (((buscar_clientes_db texto_busqueda tipo_cliente (some a) limite st).1).get
          ⟨i, hi⟩) := rfl
    rw [hE] at hbajo
    omega
  · exfalso
    have hR := (List.pairwise_iff_get.mp hP) ⟨j, hj⟩ ⟨i, hi⟩ h
    unfold leRes at hR
    rcases hR with hR | ⟨hRe, -⟩ <;> omega

theorem c1_testigo :
    (∀ c : Cliente, "Ariel" ∈ c.comercial_asignado →
        1000 ≤ relevancia_total (some "Ariel") "ho" c)
    ∧ 1000 ≤ (((buscar_clientes_db "ho" none (some "Ariel") 15 almacenEj).1).get
        ⟨0, by decide⟩).relevancia_score
    ∧ 0 < 1 :=
  c1_asignados_dominan "ho" none "Ariel" 15 almacenEj 0 1 (by decide) (by decide)
    (by decide) (by decide)
